import Mathlib

/-!
Verification of the documentation agent's decision engine.

Shallow embedding of the core components of the repository:
* `src/utils/semantic_critique.py` — semantic scorer, cross validator, score combiner
* `src/ai_agent.py` — the controller loop `run` and `is_critique_positive`
* `src/utils/api_utils.py` — the file-based `ResponseCache`

Modelling conventions:
* Python floats are modelled as rationals (`ℚ`); the claims are stated over
  real arithmetic, and every constant involved (0.2, 0.1, 1.2, 1/2, ...) is
  exactly representable.
* The regex pattern-match counts of the semantic analyzer are abstracted as an
  arbitrary function `Aspect → ℕ × ℕ` (positive and negative match counts per
  aspect); everything downstream of the counts is embedded faithfully.
* The md5 digest of the cache key is abstracted as an arbitrary function
  `String → String`; every theorem about the cache quantifies over it.
* The on-disk cache directory is modelled as a list of files, each carrying its
  key (the file name stem), the stored record, and a modification time in
  seconds.  Wall-clock instants are natural numbers.
* Python `str.lower` / `str.strip` are embedded as `py_lower` / `py_strip`
  (ASCII case folding, whitespace trimming); all phrases involved are ASCII.
* Apostrophes and quote characters inside Python log-message literals are
  elided from the embedded message strings; the identifiers and tokens the
  messages name are kept verbatim.
-/

/-! ### String helpers (Python `lower`, `strip`, `in`) -/

/-- Python `str.lower` on ASCII text: character-wise case folding. -/
def py_lower (s : String) : String := ⟨s.data.map Char.toLower⟩

/-- Python `str.strip`: drop leading and trailing whitespace. -/
def py_strip (s : String) : String :=
  ⟨((s.data.dropWhile Char.isWhitespace).reverse.dropWhile Char.isWhitespace).reverse⟩

/-- Python `phrase in s`: substring containment. -/
def containsPhrase (s phrase : String) : Bool :=
  s.data.tails.any (fun t => phrase.data.isPrefixOf t)

/-! ### semantic_critique.py: data model -/

/-- `ValidationResult` enum of `semantic_critique.py`. -/
inductive ValidationResult where
  | VALID
  | WARNING
  | ERROR
  | MISSING
deriving DecidableEq

/-- `SemanticScore` dataclass: six bounded values plus the overall score.
The Python field `structure` is a Lean keyword and is embedded as
`structure_`. -/
structure SemanticScore where
  overall_score : ℚ
  technical_accuracy : ℚ
  completeness : ℚ
  clarity : ℚ
  structure_ : ℚ
  usefulness : ℚ
  confidence : ℚ
deriving DecidableEq

/-- `ValidationIssue` dataclass of `semantic_critique.py`. -/
structure ValidationIssue where
  severity : ValidationResult
  issue_type : String
  description : String
  suggested_fix : String
  location : Option String := none
deriving DecidableEq

/-- Number of Error-severity findings in a validation pass
(`sum(1 for issue in validation_issues if issue.severity == ValidationResult.ERROR)`). -/
def errorCount (validation_issues : List ValidationIssue) : ℕ :=
  (validation_issues.filter (fun i => decide (i.severity = ValidationResult.ERROR))).length

/-- Number of Warning-severity findings in a validation pass. -/
def warningCount (validation_issues : List ValidationIssue) : ℕ :=
  (validation_issues.filter (fun i => decide (i.severity = ValidationResult.WARNING))).length

/-! ### semantic_critique.py: score combiner -/

/-- `create_semantic_critique_score` (semantic_critique.py, lines 475-503):
combine the semantic analysis and the validation findings into one final
score, clamped to [0, 1]. -/
def create_semantic_critique_score (semantic_analysis : SemanticScore)
    (validation_issues : List ValidationIssue) : ℚ :=
  let base_score := semantic_analysis.overall_score
  let error_count := errorCount validation_issues
  let warning_count := warningCount validation_issues
  let error_penalty : ℚ := (error_count : ℚ) * (2 / 10)
  let warning_penalty : ℚ := (warning_count : ℚ) * (1 / 10)
  let confidence_multiplier := semantic_analysis.confidence
  let final_score := (base_score - error_penalty - warning_penalty) * confidence_multiplier
  max 0 (min 1 final_score)

/-! ### semantic_critique.py: semantic scorer -/

/-- The five scored aspects of `SemanticCritiqueAnalyzer`. -/
inductive Aspect where
  | technical_accuracy
  | completeness
  | clarity
  | structure_
  | usefulness
deriving DecidableEq

/-- The aspect iteration order of `analyze_critique_semantically`. -/
def aspectList : List Aspect :=
  [Aspect.technical_accuracy, Aspect.completeness, Aspect.clarity,
   Aspect.structure_, Aspect.usefulness]

/-- `_calculate_aspect_score` (semantic_critique.py, lines 175-192). -/
def _calculate_aspect_score (positive_matches negative_matches : ℕ) : ℚ :=
  if positive_matches = 0 ∧ negative_matches = 0 then 1 / 2
  else
    let positive_weight : ℚ := 1
    let negative_weight : ℚ := 12 / 10
    let net_score : ℚ :=
      (positive_matches : ℚ) * positive_weight - (negative_matches : ℚ) * negative_weight
    let total_matches := positive_matches + negative_matches
    if total_matches = 0 then 1 / 2
    else
      let normalized_score := (net_score / (total_matches : ℚ) + 1) / 2
      max 0 (min 1 normalized_score)

/-- `_calculate_confidence` (semantic_critique.py, lines 194-203). -/
def _calculate_confidence (pos_matches neg_matches word_count : ℕ) : ℚ :=
  let total_matches : ℚ := ((pos_matches + neg_matches : ℕ) : ℚ)
  let match_confidence := min 1 (total_matches / 2)
  let length_confidence := min 1 ((word_count : ℚ) / 50)
  (match_confidence + length_confidence) / 2

/-- `analyze_critique_semantically` (semantic_critique.py, lines 127-166),
parameterised over the per-aspect regex match counts `pattern_matches`
(positive, negative) and the word count of the critique; everything after the
counting step is embedded faithfully.  The Python code divides by
`len(scores)` and `len(confidences)`, both the length of the aspect list. -/
def analyze_critique_semantically (pattern_matches : Aspect → ℕ × ℕ)
    (word_count : ℕ) : SemanticScore :=
  let score := fun a => _calculate_aspect_score (pattern_matches a).1 (pattern_matches a).2
  let conf := fun a =>
    _calculate_confidence (pattern_matches a).1 (pattern_matches a).2 word_count
  let overall_score := (aspectList.map score).sum / ((aspectList.map score).length : ℚ)
  let overall_confidence := (aspectList.map conf).sum / ((aspectList.map conf).length : ℚ)
  { overall_score := overall_score
    technical_accuracy := score Aspect.technical_accuracy
    completeness := score Aspect.completeness
    clarity := score Aspect.clarity
    structure_ := score Aspect.structure_
    usefulness := score Aspect.usefulness
    confidence := overall_confidence }

/-! ### ai_agent.py: acceptance decision -/

/-- The fixed list `explicit_positive` of `is_critique_positive`
(ai_agent.py, lines 371-379). -/
def explicit_positive : List String :=
  ["excellent and requires no changes",
   "perfect and requires no changes",
   "documentation is excellent",
   "documentation is perfect",
   "no changes needed",
   "no improvements necessary",
   "satisfactory as is"]

/-- `AIAgent.is_critique_positive` (ai_agent.py, lines 355-405).  The semantic
analyzer is abstracted as `analyze : String → SemanticScore` and the
validator output for the current documentation as `validation_issues`;
`critique_threshold` is `self.config.critique_threshold`. -/
def is_critique_positive (analyze : String → SemanticScore)
    (validation_issues : List ValidationIssue) (critique_threshold : ℚ)
    (critique : String) : Bool :=
  let critique_lower := py_strip (py_lower critique)
  if explicit_positive.any (fun phrase => containsPhrase critique_lower phrase) then
    true
  else
    let semantic_score := analyze critique
    let final_score := create_semantic_critique_score semantic_score validation_issues
    let critical_errors :=
      validation_issues.filter (fun i => decide (i.severity = ValidationResult.ERROR))
    decide (critique_threshold ≤ final_score) && decide (critical_errors.length = 0)

/-! ### ai_agent.py: controller loop -/

/-- One record appended to `self.iteration_metrics` after a refinement
(ai_agent.py, lines 158-162).  The elapsed wall-clock time of the Python
record is real time and is not modelled. -/
structure IterationMetric where
  iteration : ℕ
  doc_length : ℕ
deriving DecidableEq

/-- The sequence of drafts produced by the critique-refine cycle:
`draftAt 0` is the initial draft, and each successor is the refinement of the
previous draft against its critique. -/
def AIAgent.draftAt (critiqueF : String → String)
    (refineF : String → String → String) (d0 : String) : ℕ → String
  | 0 => d0
  | n + 1 =>
    let d := AIAgent.draftAt critiqueF refineF d0 n
    refineF d (critiqueF d)

/-- The `for i in range(max_iterations)` loop of `AIAgent.run`
(ai_agent.py, lines 140-164): critique the current draft, stop if the critique
is positive, otherwise refine and append an `IterationMetric` whose
`doc_length` is the length of the refined draft.  `fuel` is the number of
iterations remaining and `i` the number already performed (the Python loop
index), so the recorded iteration number is `i + 1`.  Returns the final
documentation together with the metric records in append order. -/
def AIAgent.runLoop (critiqueF : String → String) (positiveF : String → Bool)
    (refineF : String → String → String) :
    ℕ → ℕ → String → String × List IterationMetric
  | 0, _, doc => (doc, [])
  | fuel + 1, i, doc =>
    let critique := critiqueF doc
    if positiveF critique then (doc, [])
    else
      let refined := refineF doc critique
      let rest := AIAgent.runLoop critiqueF positiveF refineF fuel (i + 1) refined
      (rest.1, { iteration := i + 1, doc_length := refined.length } :: rest.2)

/-- The refinement cycle of `AIAgent.run` starting from the initial draft. -/
def AIAgent.run (critiqueF : String → String) (positiveF : String → Bool)
    (refineF : String → String → String) (max_iterations : ℕ)
    (initial_draft : String) : String × List IterationMetric :=
  AIAgent.runLoop critiqueF positiveF refineF max_iterations 0 initial_draft

/-! ### ai_agent.py: error path of run -/

/-- `DocGeneratorError` (api_utils.py, line 25): the generation error raised
when the external call exhausts its retries or returns malformed/empty
content. -/
structure DocGeneratorError where
  message : String
deriving DecidableEq

/-- The critique-refine loop with fallible generation calls: `critiqueF` and
`refineF` model `_call_ollama_with_retry`, which raises `DocGeneratorError`
after retry exhaustion (modelled as `Except.error`). -/
def AIAgent.runLoopE (critiqueF : String → Except DocGeneratorError String)
    (positiveF : String → Bool)
    (refineF : String → String → Except DocGeneratorError String) :
    ℕ → String → Except DocGeneratorError String
  | 0, doc => Except.ok doc
  | fuel + 1, doc => do
    let critique ← critiqueF doc
    if positiveF critique then Except.ok doc
    else do
      let refined ← refineF doc critique
      AIAgent.runLoopE critiqueF positiveF refineF fuel refined

/-- The body of the `try:` block of `AIAgent.run` (ai_agent.py, lines
133-171): generate the initial draft, then run the critique-refine loop;
any generation error aborts the body. -/
def AIAgent.runBody (draft : Except DocGeneratorError String)
    (critiqueF : String → Except DocGeneratorError String)
    (positiveF : String → Bool)
    (refineF : String → String → Except DocGeneratorError String)
    (max_iterations : ℕ) : Except DocGeneratorError String := do
  let d0 ← draft
  AIAgent.runLoopE critiqueF positiveF refineF max_iterations d0

/-- `AIAgent.run` itself (ai_agent.py, lines 120-175): the whole body is
wrapped in `try: ... return 0 / except Exception: ... return 1`, so every
exception — including a propagating `DocGeneratorError` — is caught, logged,
and converted into exit code 1; no error escapes `run`. -/
def AIAgent.run_exit (draft : Except DocGeneratorError String)
    (critiqueF : String → Except DocGeneratorError String)
    (positiveF : String → Bool)
    (refineF : String → String → Except DocGeneratorError String)
    (max_iterations : ℕ) : ℕ :=
  match AIAgent.runBody draft critiqueF positiveF refineF max_iterations with
  | Except.ok _ => 0
  | Except.error _ => 1

/-! ### api_utils.py: ResponseCache -/

/-- The JSON record written by `ResponseCache.set` (api_utils.py, lines
132-137): truncated prompt, model, full response, write time. -/
structure CacheEntry where
  prompt : String
  model : String
  response : String
  timestamp : ℕ
deriving DecidableEq

/-- One file of the cache directory: its name stem (the cache key), the
stored record, and the file modification time `st_mtime` in seconds. -/
structure CacheFile where
  key : String
  entry : CacheEntry
  mtime : ℕ
deriving DecidableEq

/-- `ResponseCache._get_cache_key` (api_utils.py, lines 56-59): the md5 hex
digest of `f"{model}:{prompt}"`.  The digest function is abstracted as
`md5 : String → String`. -/
def ResponseCache._get_cache_key (md5 : String → String)
    (prompt model : String) : String :=
  md5 (model ++ ":" ++ prompt)

/-- Stable insertion step for sorting cache files by modification time,
newest first (ties keep their original order, as Python's stable sort does). -/
def insertByMtimeDesc (f : CacheFile) : List CacheFile → List CacheFile
  | [] => [f]
  | g :: gs =>
    if g.mtime ≤ f.mtime then f :: g :: gs else g :: insertByMtimeDesc f gs

/-- `cache_files.sort(key=lambda f: f.stat().st_mtime, reverse=True)`:
stable sort, newest first. -/
def sortByMtimeDesc : List CacheFile → List CacheFile
  | [] => []
  | f :: fs => insertByMtimeDesc f (sortByMtimeDesc fs)

/-- `ResponseCache._clean_expired_entries` (api_utils.py, lines 65-88) at
wall-clock time `now`.  If the directory holds more than `max_entries` files,
sort newest-first and delete everything beyond the first `max_entries`.  The
subsequent expiry loop then iterates over the same (in-place sorted) list:
the surviving prefix is checked and expired files in it are deleted; as soon
as the loop reaches a file deleted by the trimming step, `stat` raises, the
surrounding `except` catches, and the loop stops — so after a trim the expiry
check is applied exactly to the kept prefix.  Without a trim the expiry check
is applied to every file. -/
def ResponseCache._clean_expired_entries (max_entries max_age_hours now : ℕ)
    (cache_files : List CacheFile) : List CacheFile :=
  let max_age_seconds := max_age_hours * 3600
  let keep := fun (f : CacheFile) => decide (now - f.mtime ≤ max_age_seconds)
  if max_entries < cache_files.length then
    ((sortByMtimeDesc cache_files).take max_entries).filter keep
  else
    cache_files.filter keep

/-- `ResponseCache.get` (api_utils.py, lines 90-115): recompute the key and
return the `response` field of the matching file, if any.  No timestamp or
modification time is consulted. -/
def ResponseCache.get (md5 : String → String) (st : List CacheFile)
    (prompt model : String) : Option String :=
  let cache_key := ResponseCache._get_cache_key md5 prompt model
  match st.find? (fun f => f.key == cache_key) with
  | some f => some f.entry.response
  | none => none

/-- `ResponseCache.set` (api_utils.py, lines 117-143) at wall-clock time
`now`: first run `_clean_expired_entries`, then write the record under the
key file name (overwriting any file with that name), with the prompt
truncated to 200 characters. -/
def ResponseCache.set (md5 : String → String)
    (max_entries max_age_hours now : ℕ) (st : List CacheFile)
    (prompt model response : String) : List CacheFile :=
  let cleaned := ResponseCache._clean_expired_entries max_entries max_age_hours now st
  let cache_key := ResponseCache._get_cache_key md5 prompt model
  let data : CacheEntry :=
    { prompt := prompt.take 200, model := model, response := response, timestamp := now }
  (cleaned.filter (fun f => f.key != cache_key)) ++
    [{ key := cache_key, entry := data, mtime := now }]

/-! ### semantic_critique.py: cross validator -/

/-- The loop body of `DocumentationValidator._check_for_documented_elements`
(semantic_critique.py, lines 384-413) for one documented token.  The code
element index is modelled as an association list of (name, source file) in
dictionary insertion order; `find?` is Python's `next(...)` over that order.
Quote characters of the Python f-string messages are elided. -/
def check_documented_element (code_elements : List (String × String))
    (doc_element : String) : List ValidationIssue :=
  if code_elements.any (fun kv => kv.1 == doc_element) then []
  else
    match code_elements.find? (fun kv => py_lower kv.1 == py_lower doc_element) with
    | some kv =>
      [{ severity := ValidationResult.WARNING
         issue_type := "naming_inconsistency"
         description := "Documented element " ++ doc_element ++
           " has case mismatch with actual code " ++ kv.1
         suggested_fix := "Use consistent casing: " ++ kv.1
         location := some kv.2 }]
    | none =>
      [{ severity := ValidationResult.ERROR
         issue_type := "missing_element"
         description := "Documentation mentions " ++ doc_element ++
           " but this element does not exist in the code"
         suggested_fix := "Remove reference to " ++ doc_element ++
           " or add the missing element to the code"
         location := some "documentation" }]

/-- `DocumentationValidator._check_for_documented_elements`: one
classification per documented token, in iteration order. -/
def _check_for_documented_elements (code_elements : List (String × String))
    (documented_elements : List String) : List ValidationIssue :=
  documented_elements.flatMap (check_documented_element code_elements)

/-! ### Helper lemmas -/

/-- Every aspect score lies in [0, 1]. -/
theorem aspect_score_mem (p n : ℕ) :
    0 ≤ _calculate_aspect_score p n ∧ _calculate_aspect_score p n ≤ 1 := by
  simp only [_calculate_aspect_score]
  split_ifs with h1 h2
  · norm_num
  · norm_num
  · refine ⟨le_max_left 0 _, max_le (by norm_num) (min_le_left _ _)⟩

/-- Every aspect confidence lies in [0, 1]. -/
theorem confidence_mem (p n w : ℕ) :
    0 ≤ _calculate_confidence p n w ∧ _calculate_confidence p n w ≤ 1 := by
  simp only [_calculate_confidence]
  have h1 : (0:ℚ) ≤ min 1 (((p + n : ℕ) : ℚ) / 2) := le_min (by norm_num) (by positivity)
  have h2 : (0:ℚ) ≤ min 1 ((w : ℚ) / 50) := le_min (by norm_num) (by positivity)
  have h3 : min 1 (((p + n : ℕ) : ℚ) / 2) ≤ 1 := min_le_left _ _
  have h4 : min 1 ((w : ℚ) / 50) ≤ 1 := min_le_left _ _
  constructor <;> linarith

/-! ### Claim C1 -/

/-- Claim C1: whenever the lower-cased (and stripped) critique contains one of
the fixed explicit positive phrases, `is_critique_positive` returns `true`
regardless of the semantic analyzer output, the validation issues (even with
Error-severity issues present) and the threshold. -/
theorem C1_explicit_phrase_forces_positive
    (critique phrase : String)
    (hmem : phrase ∈ explicit_positive)
    (hsub : containsPhrase (py_strip (py_lower critique)) phrase = true)
    (analyze : String → SemanticScore)
    (validation_issues : List ValidationIssue) (critique_threshold : ℚ) :
    is_critique_positive analyze validation_issues critique_threshold critique = true := by
  have hany : explicit_positive.any
      (fun p => containsPhrase (py_strip (py_lower critique)) p) = true :=
    List.any_eq_true.mpr ⟨phrase, hmem, hsub⟩
  simp [is_critique_positive, hany]

/-- Witness for C1: the phrase "documentation is excellent" occurs in a
concrete critique, and the decision is positive even though an
Error-severity validation issue is present and the threshold is 1. -/
theorem C1_witness :
    ("documentation is excellent" ∈ explicit_positive ∧
      containsPhrase (py_strip (py_lower "  The Documentation is EXCELLENT overall.  "))
        "documentation is excellent" = true) ∧
    is_critique_positive (fun _ => ⟨0, 0, 0, 0, 0, 0, 0⟩)
      [{ severity := ValidationResult.ERROR, issue_type := "missing_element",
         description := "d", suggested_fix := "f", location := none }]
      1 "  The Documentation is EXCELLENT overall.  " = true :=
  ⟨⟨by decide, by decide⟩,
    C1_explicit_phrase_forces_positive _ "documentation is excellent"
      (by decide) (by decide) _ _ _⟩

/-! ### Claim C2 -/

/-- Claim C2: the combined score equals
`clamp((overall_score − 0.2·E − 0.1·W) · confidence, 0, 1)` where `E` and `W`
are the Error and Warning counts, and — absent an explicit-phrase early
exit — the decision is positive iff that combined score is at least the
threshold and `E = 0`. -/
theorem C2_combiner_formula_and_decision
    (analyze : String → SemanticScore) (critique : String)
    (validation_issues : List ValidationIssue) (t : ℚ)
    (ht0 : 0 ≤ t) (ht1 : t ≤ 1)
    (hnoexit : explicit_positive.any
      (fun phrase => containsPhrase (py_strip (py_lower critique)) phrase) = false) :
    create_semantic_critique_score (analyze critique) validation_issues =
      max 0 (min 1 (((analyze critique).overall_score
          - (0.2 : ℚ) * (errorCount validation_issues : ℚ)
          - (0.1 : ℚ) * (warningCount validation_issues : ℚ))
        * (analyze critique).confidence)) ∧
    (is_critique_positive analyze validation_issues t critique = true ↔
      (t ≤ create_semantic_critique_score (analyze critique) validation_issues ∧
        errorCount validation_issues = 0)) := by
  constructor
  · simp only [create_semantic_critique_score]
    rw [show (0.2 : ℚ) = 2 / 10 by norm_num, show (0.1 : ℚ) = 1 / 10 by norm_num]
    ring_nf
  · simp only [is_critique_positive, hnoexit, Bool.false_eq_true, if_false,
      Bool.and_eq_true, decide_eq_true_eq, errorCount]

/-- A concrete Error-severity validation issue used by witnesses. -/
def demo_error_issue : ValidationIssue :=
  { severity := ValidationResult.ERROR
    issue_type := "missing_element"
    description := "d"
    suggested_fix := "f"
    location := none }

/-- A concrete semantic score used by witnesses. -/
def demo_score : SemanticScore := ⟨1, 1, 1, 1, 1, 1, 1⟩

/-- Witness for C2: a concrete critique with no explicit positive phrase, a
concrete score, one Error issue and threshold 4/5. -/
theorem C2_witness :
    ((0 : ℚ) ≤ mkRat 4 5 ∧ (mkRat 4 5 : ℚ) ≤ 1 ∧
      explicit_positive.any (fun phrase =>
        containsPhrase (py_strip (py_lower "bad.")) phrase)
        = false) ∧
    (create_semantic_critique_score ((fun _ => demo_score)
        "bad.") [demo_error_issue] =
      max 0 (min 1 ((demo_score.overall_score
          - (0.2 : ℚ) * (errorCount [demo_error_issue] : ℚ)
          - (0.1 : ℚ) * (warningCount [demo_error_issue] : ℚ))
        * demo_score.confidence)) ∧
      (is_critique_positive (fun _ => demo_score) [demo_error_issue]
          (mkRat 4 5) "bad." = true ↔
        ((mkRat 4 5 : ℚ) ≤ create_semantic_critique_score
            ((fun _ => demo_score) "bad.")
            [demo_error_issue] ∧
          errorCount [demo_error_issue] = 0))) :=
  ⟨⟨by decide, by decide, by decide⟩,
    C2_combiner_formula_and_decision (fun _ => demo_score) "bad." [demo_error_issue]
      (mkRat 4 5) (by decide) (by decide) (by decide)⟩

/-! ### Claim C3 -/

/-- Claim C3: for every critique (i.e. for every family of regex match counts
and word count), the produced `SemanticScore` has all of technical_accuracy,
completeness, clarity, structure, usefulness and confidence in [0, 1], and its
overall score is the arithmetic mean of the five aspect fields. -/
theorem C3_semantic_score_bounds_and_mean
    (pattern_matches : Aspect → ℕ × ℕ) (word_count : ℕ) :
    let s := analyze_critique_semantically pattern_matches word_count
    ((0 ≤ s.technical_accuracy ∧ s.technical_accuracy ≤ 1) ∧
     (0 ≤ s.completeness ∧ s.completeness ≤ 1) ∧
     (0 ≤ s.clarity ∧ s.clarity ≤ 1) ∧
     (0 ≤ s.structure_ ∧ s.structure_ ≤ 1) ∧
     (0 ≤ s.usefulness ∧ s.usefulness ≤ 1) ∧
     (0 ≤ s.confidence ∧ s.confidence ≤ 1)) ∧
    s.overall_score = (s.technical_accuracy + s.completeness + s.clarity +
      s.structure_ + s.usefulness) / 5 := by
  intro s
  have hta := aspect_score_mem (pattern_matches Aspect.technical_accuracy).1
    (pattern_matches Aspect.technical_accuracy).2
  have hco := aspect_score_mem (pattern_matches Aspect.completeness).1
    (pattern_matches Aspect.completeness).2
  have hcl := aspect_score_mem (pattern_matches Aspect.clarity).1
    (pattern_matches Aspect.clarity).2
  have hst := aspect_score_mem (pattern_matches Aspect.structure_).1
    (pattern_matches Aspect.structure_).2
  have hus := aspect_score_mem (pattern_matches Aspect.usefulness).1
    (pattern_matches Aspect.usefulness).2
  have cta := confidence_mem (pattern_matches Aspect.technical_accuracy).1
    (pattern_matches Aspect.technical_accuracy).2 word_count
  have cco := confidence_mem (pattern_matches Aspect.completeness).1
    (pattern_matches Aspect.completeness).2 word_count
  have ccl := confidence_mem (pattern_matches Aspect.clarity).1
    (pattern_matches Aspect.clarity).2 word_count
  have cst := confidence_mem (pattern_matches Aspect.structure_).1
    (pattern_matches Aspect.structure_).2 word_count
  have cus := confidence_mem (pattern_matches Aspect.usefulness).1
    (pattern_matches Aspect.usefulness).2 word_count
  simp only [s, analyze_critique_semantically, aspectList, List.map_cons,
    List.map_nil, List.sum_cons, List.sum_nil, List.length_cons,
    List.length_nil] at *
  refine ⟨⟨hta, hco, hcl, hst, hus, ?_⟩, ?_⟩
  · constructor
    · have h5 : (0:ℚ) ≤ 5 := by norm_num
      obtain ⟨a1, b1⟩ := cta
      obtain ⟨a2, b2⟩ := cco
      obtain ⟨a3, b3⟩ := ccl
      obtain ⟨a4, b4⟩ := cst
      obtain ⟨a5, b5⟩ := cus
      push_cast
      have : (0:ℚ) ≤ (_calculate_confidence (pattern_matches Aspect.technical_accuracy).1
          (pattern_matches Aspect.technical_accuracy).2 word_count +
        (_calculate_confidence (pattern_matches Aspect.completeness).1
          (pattern_matches Aspect.completeness).2 word_count +
        (_calculate_confidence (pattern_matches Aspect.clarity).1
          (pattern_matches Aspect.clarity).2 word_count +
        (_calculate_confidence (pattern_matches Aspect.structure_).1
          (pattern_matches Aspect.structure_).2 word_count +
        (_calculate_confidence (pattern_matches Aspect.usefulness).1
          (pattern_matches Aspect.usefulness).2 word_count + 0))))) := by linarith
      positivity
    · obtain ⟨a1, b1⟩ := cta
      obtain ⟨a2, b2⟩ := cco
      obtain ⟨a3, b3⟩ := ccl
      obtain ⟨a4, b4⟩ := cst
      obtain ⟨a5, b5⟩ := cus
      push_cast
      rw [div_le_one (by norm_num)]
      linarith
  · push_cast
    ring

/-! ### Claim C4 -/

/-- Shifting the start draft by one refinement step shifts the draft
sequence. -/
theorem draftAt_shift (critiqueF : String → String)
    (refineF : String → String → String) (d : String) (j : ℕ) :
    AIAgent.draftAt critiqueF refineF (refineF d (critiqueF d)) j =
      AIAgent.draftAt critiqueF refineF d (j + 1) := by
  induction j with
  | zero => rfl
  | succ j ih => simp only [AIAgent.draftAt, ih]

/-- If the first `i` critiques are negative and the critique of the `i`-th
draft is positive, the loop returns that draft with `i` metric records. -/
theorem runLoop_stops (critiqueF : String → String) (positiveF : String → Bool)
    (refineF : String → String → String) :
    ∀ (i fuel : ℕ), i < fuel → ∀ (i0 : ℕ) (d : String),
      (∀ j, j < i → positiveF (critiqueF (AIAgent.draftAt critiqueF refineF d j)) = false) →
      positiveF (critiqueF (AIAgent.draftAt critiqueF refineF d i)) = true →
      (AIAgent.runLoop critiqueF positiveF refineF fuel i0 d).1 =
          AIAgent.draftAt critiqueF refineF d i ∧
        (AIAgent.runLoop critiqueF positiveF refineF fuel i0 d).2.length = i := by
  intro i
  induction i with
  | zero =>
    intro fuel hfuel i0 d _ hpos
    obtain ⟨fuel, rfl⟩ : ∃ f, fuel = f + 1 := ⟨fuel - 1, by omega⟩
    simp only [AIAgent.runLoop]
    simp only [AIAgent.draftAt] at hpos
    simp [hpos, AIAgent.draftAt]
  | succ i ih =>
    intro fuel hfuel i0 d hneg hpos
    obtain ⟨fuel, rfl⟩ : ∃ f, fuel = f + 1 := ⟨fuel - 1, by omega⟩
    have hneg0 : positiveF (critiqueF d) = false := by
      have := hneg 0 (Nat.succ_pos i)
      simpa [AIAgent.draftAt] using this
    have hrec := ih fuel (by omega) (i0 + 1) (refineF d (critiqueF d))
      (fun j hj => by
        rw [draftAt_shift]
        exact hneg (j + 1) (by omega))
      (by rw [draftAt_shift]; exact hpos)
    simp only [AIAgent.runLoop, hneg0, Bool.false_eq_true, if_false]
    rw [draftAt_shift] at hrec
    exact ⟨hrec.1, by simpa using hrec.2⟩

/-- Claim C4: in the controller loop, a positive decision at iteration `i + 1`
(Python loop index `i`) stops the loop and the draft that was critiqued at
that iteration — `draftAt i`, i.e. for `i ≥ 1` the draft produced by the
refinement at iteration `i` — is returned as the final documentation, with
exactly `i` IterationMetric records appended.  In particular, for
`max_iterations = 3` with negative decisions at iterations 1 and 2 and a
positive decision at iteration 3, the result is `draftAt 2` (the refinement
produced at iteration 2) with exactly two metric records. -/
theorem C4_positive_stop_returns_critiqued_draft
    (critiqueF : String → String) (positiveF : String → Bool)
    (refineF : String → String → String) (d0 : String)
    (max_iterations i : ℕ) (hi : i < max_iterations)
    (hneg : ∀ j, j < i →
      positiveF (critiqueF (AIAgent.draftAt critiqueF refineF d0 j)) = false)
    (hpos : positiveF (critiqueF (AIAgent.draftAt critiqueF refineF d0 i)) = true) :
    (AIAgent.run critiqueF positiveF refineF max_iterations d0).1 =
        AIAgent.draftAt critiqueF refineF d0 i ∧
      (AIAgent.run critiqueF positiveF refineF max_iterations d0).2.length = i :=
  runLoop_stops critiqueF positiveF refineF i max_iterations hi 0 d0 hneg hpos

/-- Witness for C4: critique is the identity, a draft is judged positive when
it equals "xdd", and each refinement appends one character.  Starting from
"x" with `max_iterations = 3`, iterations 1 and 2 are negative, iteration 3 is
positive, and the run returns the iteration-2 refinement "xdd" with exactly
two metric records. -/
theorem C4_witness :
    (AIAgent.run id (fun c => c == "xdd") (fun d _ => d ++ "d") 3 "x").1 =
        AIAgent.draftAt id (fun d _ => d ++ "d") "x" 2 ∧
      (AIAgent.run id (fun c => c == "xdd") (fun d _ => d ++ "d") 3 "x").2.length = 2 :=
  C4_positive_stop_returns_critiqued_draft id (fun c => c == "xdd")
    (fun d _ => d ++ "d") "x" 3 2 (by decide) (by decide) (by decide)

/-! ### Claim C5 -/

/-- After a `set`, a `get` whose (prompt, model) pair hashes to the same key
returns the freshly stored response: the write happens after the cleanup, and
overwrites any older file with the same key. -/
theorem get_after_set_key (md5 : String → String)
    (max_entries max_age_hours now : ℕ) (st : List CacheFile)
    (p m p2 m2 r : String)
    (hkey : ResponseCache._get_cache_key md5 p2 m2 =
      ResponseCache._get_cache_key md5 p m) :
    ResponseCache.get md5
      (ResponseCache.set md5 max_entries max_age_hours now st p m r) p2 m2 =
      some r := by
  simp only [ResponseCache.get, ResponseCache.set, hkey]
  rw [List.find?_append]
  have hnone : List.find?
      (fun f => f.key == ResponseCache._get_cache_key md5 p m)
      (List.filter
        (fun f => f.key != ResponseCache._get_cache_key md5 p m)
        (ResponseCache._clean_expired_entries max_entries max_age_hours now st)) =
      none := by
    rw [List.find?_eq_none]
    intro x hx
    have hne := (List.mem_filter.1 hx).2
    simp only [bne_iff_ne, ne_eq] at hne
    simp [hne]
  rw [hnone]
  simp [List.find?]

/-- Claim C5: for non-empty prompt, model and response, `set` immediately
followed by `get` on the same (prompt, model) pair returns exactly the stored
response. -/
theorem C5_cache_roundtrip (md5 : String → String)
    (max_entries max_age_hours now : ℕ) (st : List CacheFile)
    (p m r : String) (hp : p ≠ "") (hm : m ≠ "") (hr : r ≠ "") :
    ResponseCache.get md5
      (ResponseCache.set md5 max_entries max_age_hours now st p m r) p m =
      some r :=
  get_after_set_key md5 max_entries max_age_hours now st p m p m r rfl

/-- Witness for C5: a concrete round trip through an empty cache. -/
theorem C5_witness :
    ("What is X?" ≠ "" ∧ "llama" ≠ "" ∧ "X is Y." ≠ "") ∧
    ResponseCache.get id
      (ResponseCache.set id 100 24 5 [] "What is X?" "llama" "X is Y.")
      "What is X?" "llama" = some "X is Y." :=
  ⟨⟨by decide, by decide, by decide⟩,
    C5_cache_roundtrip id 100 24 5 [] "What is X?" "llama" "X is Y."
      (by decide) (by decide) (by decide)⟩

/-! ### Claim C9 -/

/-- Claim C9: the cache key is the digest of `model ++ ":" ++ prompt`, which
is not injective on (prompt, model): the distinct pairs
(prompt "b:c", model "a") and (prompt "c", model "a:b") both produce the
digest of "a:b:c", hence the identical key for every digest function, and a
`set` for the first pair followed by a `get` for the second returns the first
pair's response. -/
theorem C9_cache_key_collision (md5 : String → String)
    (max_entries max_age_hours now : ℕ) (st : List CacheFile) (r : String) :
    ResponseCache._get_cache_key md5 "b:c" "a" =
        ResponseCache._get_cache_key md5 "c" "a:b" ∧
      (("b:c", "a") ≠ (("c", "a:b") : String × String)) ∧
      ResponseCache.get md5
        (ResponseCache.set md5 max_entries max_age_hours now st "b:c" "a" r)
        "c" "a:b" = some r := by
  have harg : ("a" ++ ":" ++ "b:c" : String) = "a:b" ++ ":" ++ "c" := by decide
  refine ⟨?_, by decide, ?_⟩
  · simp only [ResponseCache._get_cache_key]
    exact congrArg md5 harg
  · refine get_after_set_key md5 max_entries max_age_hours now st "b:c" "a" "c" "a:b" r ?_
    simp only [ResponseCache._get_cache_key]
    exact congrArg md5 harg.symm

/-! ### Claim C10 -/

/-- Claim C10: `get` consults no clock: a stored entry whose key matches the
requested (prompt, model) is returned however much older than
`max_age_hours` it is (first conjunct — the hypothesis `hstale` says the
entry is expired, yet `get`, which takes no notion of current time at all,
still returns it).  Age-based eviction lives only in the cleanup that `set`
performs: the same expired file is deleted by `_clean_expired_entries`
(second conjunct). -/
theorem C10_get_ignores_age (md5 : String → String) (p m r : String)
    (mtime ts now max_entries max_age_hours : ℕ) (rest : List CacheFile)
    (hstale : max_age_hours * 3600 < now - mtime) :
    ResponseCache.get md5
        ({ key := ResponseCache._get_cache_key md5 p m,
           entry := { prompt := p.take 200, model := m, response := r,
                      timestamp := ts },
           mtime := mtime } :: rest) p m = some r ∧
      ResponseCache._clean_expired_entries max_entries max_age_hours now
        [{ key := ResponseCache._get_cache_key md5 p m,
           entry := { prompt := p.take 200, model := m, response := r,
                      timestamp := ts },
           mtime := mtime }] = [] := by
  constructor
  · simp [ResponseCache.get]
  · have hk : ¬ (now - mtime ≤ max_age_hours * 3600) := by omega
    by_cases h : max_entries < 1
    · have h0 : max_entries = 0 := by omega
      subst h0
      simp [ResponseCache._clean_expired_entries, sortByMtimeDesc,
        insertByMtimeDesc]
    · simp [ResponseCache._clean_expired_entries, h, hk]
      omega

/-- Witness for C10: a concrete entry written at time 0 and read at time
1000000 with a 24-hour maximum age — long expired, still returned by `get`,
deleted by the cleanup. -/
theorem C10_witness :
    ((24 : ℕ) * 3600 < 1000000 - 0) ∧
    (ResponseCache.get id
        ({ key := ResponseCache._get_cache_key id "q" "mod",
           entry := { prompt := "q".take 200, model := "mod", response := "resp",
                      timestamp := 7 },
           mtime := 0 } :: []) "q" "mod" = some "resp" ∧
      ResponseCache._clean_expired_entries 100 24 1000000
        [{ key := ResponseCache._get_cache_key id "q" "mod",
           entry := { prompt := "q".take 200, model := "mod", response := "resp",
                      timestamp := 7 },
           mtime := 0 }] = []) :=
  ⟨by decide,
    C10_get_ignores_age id "q" "mod" "resp" 0 7 1000000 100 24 [] (by decide)⟩

/-! ### Claim C6 -/

/-- Inserting into the mtime-descending order is a permutation of consing. -/
theorem insertByMtimeDesc_perm (f : CacheFile) (l : List CacheFile) :
    List.Perm (insertByMtimeDesc f l) (f :: l) := by
  induction l with
  | nil => exact List.Perm.refl _
  | cons g gs ih =>
    simp only [insertByMtimeDesc]
    split_ifs with h
    · exact List.Perm.refl _
    · exact (ih.cons g).trans (List.Perm.swap f g gs)

/-- The sort is a permutation of its input. -/
theorem sortByMtimeDesc_perm (l : List CacheFile) : List.Perm (sortByMtimeDesc l) l := by
  induction l with
  | nil => exact List.Perm.refl _
  | cons f fs ih =>
    exact (insertByMtimeDesc_perm f (sortByMtimeDesc fs)).trans (ih.cons f)

/-- Insertion preserves the newest-first ordering. -/
theorem insertByMtimeDesc_pairwise (f : CacheFile) (l : List CacheFile)
    (h : List.Pairwise (fun a b => b.mtime ≤ a.mtime) l) :
    List.Pairwise (fun a b => b.mtime ≤ a.mtime) (insertByMtimeDesc f l) := by
  induction l with
  | nil => simp [insertByMtimeDesc]
  | cons g gs ih =>
    rw [List.pairwise_cons] at h
    simp only [insertByMtimeDesc]
    split_ifs with hle
    · rw [List.pairwise_cons]
      refine ⟨?_, List.pairwise_cons.2 h⟩
      intro x hx
      rcases List.mem_cons.1 hx with rfl | hx
      · exact hle
      · exact le_trans (h.1 x hx) hle
    · rw [List.pairwise_cons]
      refine ⟨?_, ih h.2⟩
      intro x hx
      have hx2 := (insertByMtimeDesc_perm f gs).mem_iff.1 hx
      rcases List.mem_cons.1 hx2 with rfl | hx2
      · omega
      · exact h.1 x hx2

/-- The sorted cache listing is newest-first. -/
theorem sortByMtimeDesc_pairwise (l : List CacheFile) :
    List.Pairwise (fun a b => b.mtime ≤ a.mtime) (sortByMtimeDesc l) := by
  induction l with
  | nil => simp [sortByMtimeDesc]
  | cons f fs ih => exact insertByMtimeDesc_pairwise f _ ih

/-- The cleanup leaves at most `max_entries` files behind. -/
theorem clean_length_le (max_entries max_age_hours now : ℕ)
    (st : List CacheFile) :
    (ResponseCache._clean_expired_entries max_entries max_age_hours now st).length
      ≤ max_entries := by
  simp only [ResponseCache._clean_expired_entries]
  split_ifs with h
  · exact le_trans (List.length_filter_le _ _) (List.length_take_le _ _)
  · exact le_trans (List.length_filter_le _ _) (by omega)

/-- Counterexample to claim C6 as stated: with `max_entries = 1`, inserting
`max_entries + 1 = 2` distinct entries (each `set` running the cleanup first
and writing afterwards) leaves 2 entries, not at most 1 — the cleanup runs
before the write, so the freshly written file always escapes the trim. -/
theorem C6_counterexample :
    ¬ ((ResponseCache.set id 1 1000 2
        (ResponseCache.set id 1 1000 1 [] "p1" "m" "r1") "p2" "m" "r2").length
      ≤ 1) := by decide

/-- Claim C6 amended: after any `set` (which performs the cleanup and then
writes the new entry) at most `max_entries + 1` files remain, and every file
the cleanup evicts is no newer than every file it retains — so the retained
entries are the most recently modified ones. -/
theorem C6_amended_capacity_and_retention (md5 : String → String)
    (max_entries max_age_hours now : ℕ) (st : List CacheFile)
    (p m r : String) :
    (ResponseCache.set md5 max_entries max_age_hours now st p m r).length ≤
        max_entries + 1 ∧
      (∀ f ∈ st,
        f ∉ ResponseCache._clean_expired_entries max_entries max_age_hours now st →
        ∀ g ∈ ResponseCache._clean_expired_entries max_entries max_age_hours now st,
          f.mtime ≤ g.mtime) := by
  constructor
  · simp only [ResponseCache.set, List.length_append, List.length_cons,
      List.length_nil]
    have h1 := clean_length_le max_entries max_age_hours now st
    have h2 := List.length_filter_le
      (fun f => f.key != ResponseCache._get_cache_key md5 p m)
      (ResponseCache._clean_expired_entries max_entries max_age_hours now st)
    omega
  · intro f hf hfnot g hg
    simp only [ResponseCache._clean_expired_entries] at hfnot hg
    by_cases h : max_entries < st.length
    · rw [if_pos h] at hfnot hg
      have hgkeep := (List.mem_filter.1 hg).2
      have hgtake := (List.mem_filter.1 hg).1
      have hfs : f ∈ sortByMtimeDesc st := (sortByMtimeDesc_perm st).mem_iff.2 hf
      by_cases hft : f ∈ (sortByMtimeDesc st).take max_entries
      · have hfexp : ¬ (decide (now - f.mtime ≤ max_age_hours * 3600) = true) := by
          intro hcon
          exact hfnot (List.mem_filter.2 ⟨hft, hcon⟩)
        simp only [decide_eq_true_eq] at hfexp hgkeep
        omega
      · have hsplit := List.take_append_drop max_entries (sortByMtimeDesc st)
        have hpair := sortByMtimeDesc_pairwise st
        rw [← hsplit] at hpair
        have h3 := (List.pairwise_append.1 hpair).2.2
        have hfd : f ∈ (sortByMtimeDesc st).drop max_entries := by
          rw [← hsplit] at hfs
          rcases List.mem_append.1 hfs with hx | hx
          · exact absurd hx hft
          · exact hx
        exact h3 g hgtake f hfd
    · rw [if_neg h] at hfnot hg
      have hgkeep := (List.mem_filter.1 hg).2
      have hfexp : ¬ (decide (now - f.mtime ≤ max_age_hours * 3600) = true) := by
        intro hcon
        exact hfnot (List.mem_filter.2 ⟨hf, hcon⟩)
      simp only [decide_eq_true_eq] at hfexp hgkeep
      omega

/-- A cache file written at time 1, used by the C6 witness. -/
def demoA : CacheFile :=
  { key := "a"
    entry := { prompt := "pa", model := "m", response := "ra", timestamp := 1 }
    mtime := 1 }

/-- A cache file written at time 5, used by the C6 witness. -/
def demoB : CacheFile :=
  { key := "b"
    entry := { prompt := "pb", model := "m", response := "rb", timestamp := 5 }
    mtime := 5 }

/-- Witness for the amended C6: with `max_entries = 1` and the two files
above, a `set` leaves at most two files, and the evicted older file `demoA`
is no newer than the retained `demoB`. -/
theorem C6_witness :
    (ResponseCache.set id 1 1000 5 [demoA, demoB] "p" "m" "r").length ≤ 1 + 1 ∧
      demoA.mtime ≤ demoB.mtime :=
  ⟨(C6_amended_capacity_and_retention id 1 1000 5 [demoA, demoB] "p" "m" "r").1,
    (C6_amended_capacity_and_retention id 1 1000 5 [demoA, demoB] "p" "m" "r").2
      demoA (by decide) (by decide) demoB (by decide)⟩

/-! ### Claim C8 -/

/-- The generation error produced after retry exhaustion
(`DocGeneratorError(f"API request failed after {max_retries} attempts: ...")`). -/
def genFailure : DocGeneratorError :=
  { message := "API request failed after 3 attempts" }

/-- Counterexample to claim C8 as stated: with a draft generation that has
exhausted its retries, the pipeline body does end in the generation error,
but `run` does not propagate it — the blanket `except Exception` converts it
into the ordinary return value 1, so `run` returns normally instead of
failing. -/
theorem C8_counterexample :
    AIAgent.runBody (Except.error genFailure)
        (fun d => Except.ok d) (fun _ => true) (fun d _ => Except.ok d) 3 =
      Except.error genFailure ∧
    AIAgent.run_exit (Except.error genFailure)
        (fun d => Except.ok d) (fun _ => true) (fun d _ => Except.ok d) 3 = 1 :=
  ⟨rfl, rfl⟩

/-- Claim C8 amended: `run` returns an integer exit code, not the draft text;
when any generation call (initial draft, critique or refinement) fails — in
particular after retry exhaustion — the `DocGeneratorError` is caught inside
`run` by the blanket `except Exception` handler and converted into exit code
1; it never propagates out of `run`.  On success `run` returns 0. -/
theorem C8_amended_run_converts_generation_errors
    (draft : Except DocGeneratorError String)
    (critiqueF : String → Except DocGeneratorError String)
    (positiveF : String → Bool)
    (refineF : String → String → Except DocGeneratorError String)
    (max_iterations : ℕ) :
    (∀ e : DocGeneratorError,
      AIAgent.runBody draft critiqueF positiveF refineF max_iterations =
          Except.error e →
        AIAgent.run_exit draft critiqueF positiveF refineF max_iterations = 1) ∧
    (∀ d : String,
      AIAgent.runBody draft critiqueF positiveF refineF max_iterations =
          Except.ok d →
        AIAgent.run_exit draft critiqueF positiveF refineF max_iterations = 0) := by
  constructor
  · intro e h
    simp [AIAgent.run_exit, h]
  · intro d h
    simp [AIAgent.run_exit, h]

/-- Witness for the amended C8: the failing input of the counterexample
yields exit code 1. -/
theorem C8_witness :
    AIAgent.run_exit (Except.error genFailure)
        (fun d => Except.ok d) (fun _ => true) (fun d _ => Except.ok d) 3 = 1 :=
  (C8_amended_run_converts_generation_errors (Except.error genFailure)
      (fun d => Except.ok d) (fun _ => true) (fun d _ => Except.ok d) 3).1
    genFailure rfl

/-! ### Claim C7 -/

/-- A string occurs in the concatenation that surrounds it. -/
theorem containsPhrase_mid (a t b : String) :
    containsPhrase (a ++ t ++ b) t = true := by
  simp only [containsPhrase, List.any_eq_true]
  refine ⟨t.data ++ b.data, ?_, ?_⟩
  · rw [List.mem_tails]
    have hdata : (a ++ t ++ b).data = a.data ++ (t.data ++ b.data) := by
      rw [String.data_append, String.data_append, List.append_assoc]
    rw [hdata]
    exact List.suffix_append _ _
  · rw [List.isPrefixOf_iff_prefix]
    exact List.prefix_append _ _

/-- A string occurs at the end of the concatenation that precedes it. -/
theorem containsPhrase_append (a t : String) :
    containsPhrase (a ++ t) t = true := by
  simp only [containsPhrase, List.any_eq_true]
  refine ⟨t.data, ?_, ?_⟩
  · rw [List.mem_tails, String.data_append]
    exact List.suffix_append _ _
  · rw [List.isPrefixOf_iff_prefix]

/-- Claim C7: for each documented token the validator emits, per token,
no issue on an exact match; exactly one Warning with issue_type
`naming_inconsistency` whose suggested fix names the correctly-cased
identifier on a case-insensitive-only match; and exactly one Error with
issue_type `missing_element` naming the token when there is no match at all.
The full validation list is the concatenation of the per-token
classifications. -/
theorem C7_token_classification (code_elements : List (String × String))
    (t : String) :
    (∀ documented_elements,
      _check_for_documented_elements code_elements documented_elements =
        documented_elements.flatMap (check_documented_element code_elements)) ∧
    (code_elements.any (fun kv => kv.1 == t) = true →
      check_documented_element code_elements t = []) ∧
    (∀ kv, code_elements.any (fun kv2 => kv2.1 == t) = false →
      code_elements.find? (fun kv2 => py_lower kv2.1 == py_lower t) = some kv →
      (check_documented_element code_elements t =
        [{ severity := ValidationResult.WARNING
           issue_type := "naming_inconsistency"
           description := "Documented element " ++ t ++
             " has case mismatch with actual code " ++ kv.1
           suggested_fix := "Use consistent casing: " ++ kv.1
           location := some kv.2 }] ∧
        containsPhrase ("Use consistent casing: " ++ kv.1) kv.1 = true)) ∧
    (code_elements.any (fun kv2 => kv2.1 == t) = false →
      code_elements.find? (fun kv2 => py_lower kv2.1 == py_lower t) = none →
      (check_documented_element code_elements t =
        [{ severity := ValidationResult.ERROR
           issue_type := "missing_element"
           description := "Documentation mentions " ++ t ++
             " but this element does not exist in the code"
           suggested_fix := "Remove reference to " ++ t ++
             " or add the missing element to the code"
           location := some "documentation" }] ∧
        containsPhrase ("Documentation mentions " ++ t ++
          " but this element does not exist in the code") t = true)) := by
  refine ⟨fun documented_elements => rfl, ?_, ?_, ?_⟩
  · intro h
    simp [check_documented_element, h]
  · intro kv hany hfind
    refine ⟨?_, containsPhrase_append _ _⟩
    simp [check_documented_element, hany, hfind]
  · intro hany hfind
    refine ⟨?_, containsPhrase_mid _ _ _⟩
    simp [check_documented_element, hany, hfind]

/-- The concrete code element index used by the C7 witness. -/
def demo_code_elements : List (String × String) :=
  [("calculate_sum", "calc.py"), ("Calculator", "calc.py")]

/-- Witness for C7: against the index above, the token "calculate_sum"
matches exactly and yields no issue; "CALCULATOR" matches only
case-insensitively and yields the single naming_inconsistency Warning naming
"Calculator"; "nonExistentFunction" matches nothing and yields the single
missing_element Error naming it. -/
theorem C7_witness :
    check_documented_element demo_code_elements "calculate_sum" = [] ∧
    (check_documented_element demo_code_elements "CALCULATOR" =
        [{ severity := ValidationResult.WARNING
           issue_type := "naming_inconsistency"
           description := "Documented element " ++ "CALCULATOR" ++
             " has case mismatch with actual code " ++ "Calculator"
           suggested_fix := "Use consistent casing: " ++ "Calculator"
           location := some "calc.py" }] ∧
      containsPhrase ("Use consistent casing: " ++ "Calculator") "Calculator"
        = true) ∧
    (check_documented_element demo_code_elements "nonExistentFunction" =
        [{ severity := ValidationResult.ERROR
           issue_type := "missing_element"
           description := "Documentation mentions " ++ "nonExistentFunction" ++
             " but this element does not exist in the code"
           suggested_fix := "Remove reference to " ++ "nonExistentFunction" ++
             " or add the missing element to the code"
           location := some "documentation" }] ∧
      containsPhrase ("Documentation mentions " ++ "nonExistentFunction" ++
        " but this element does not exist in the code") "nonExistentFunction"
        = true) :=
  ⟨(C7_token_classification demo_code_elements "calculate_sum").2.1 (by decide),
    (C7_token_classification demo_code_elements "CALCULATOR").2.2.1
      ("Calculator", "calc.py") (by decide) (by decide),
    (C7_token_classification demo_code_elements "nonExistentFunction").2.2.2
      (by decide) (by decide)⟩
